import Mathlib

/-!
Verification of the pink-telegram-transcriber bot against its specification.

The development shallowly embeds the two Python source files
(`config.py` and `bot.py`): pure helpers become Lean functions, the
side-effecting handlers and the worker loop become functions over an
explicit environment (outcomes of the external collaborators: download,
ffmpeg invocation, transcription backend, message edits) and an explicit
file-system state (the set of temp-file paths), returning the new state
together with the list of outbound message operations performed.
-/

namespace PinkTranscriber

/-! ## Configuration data (config.py) -/

/-- `SUPPORTED_AUDIO_MIMES` from config.py. -/
def SUPPORTED_AUDIO_MIMES : List String :=
  ["audio/mpeg", "audio/mp4", "audio/x-m4a", "audio/mp3", "audio/wav",
   "audio/x-wav", "audio/wave", "audio/ogg", "audio/opus", "audio/flac",
   "audio/x-flac", "audio/aac", "audio/aacp", "audio/amr", "audio/3gpp",
   "audio/webm", "audio/wma", "audio/x-ms-wma"]

/-- `SUPPORTED_VIDEO_MIMES` from config.py. -/
def SUPPORTED_VIDEO_MIMES : List String :=
  ["video/mp4", "video/mpeg", "video/quicktime", "video/x-matroska",
   "video/webm", "video/x-msvideo", "video/x-flv", "video/3gpp", "video/3gpp2"]

/-- `AUDIO_EXTENSIONS` from config.py (note: contains ".webm"). -/
def AUDIO_EXTENSIONS : List String :=
  [".mp3", ".m4a", ".wav", ".ogg", ".opus",
   ".flac", ".aac", ".amr", ".wma", ".webm"]

/-- `VIDEO_EXTENSIONS` from config.py (note: also contains ".webm"). -/
def VIDEO_EXTENSIONS : List String :=
  [".mp4", ".avi", ".mov", ".mkv", ".webm",
   ".flv", ".3gp", ".3g2", ".mpeg", ".mpg"]

/-- `is_user_allowed` from config.py: exact membership of the user id in
the whitelist (the module-level set is a parameter here). -/
def is_user_allowed (allowed : List Int) (user_id : Int) : Bool :=
  allowed.contains user_id

/-! ## Pathlib suffix model

`Path(file_name).suffix` in Python: the final component's extension,
including the leading dot; empty when the name has no dot, starts with
its only dot, or ends with the dot. -/

/-- Split a character list at every occurrence of `sep` (like
`str.split(sep)` in Python: no collapsing, empty pieces kept). -/
def splitOnChar (sep : Char) : List Char → List (List Char)
  | [] => [[]]
  | c :: rest =>
    match splitOnChar sep rest with
    | [] => [[c]]
    | h :: t => if c = sep then [] :: h :: t else (c :: h) :: t

/-- `Path(p).name`: last path component, skipping empty and "." parts. -/
def pyName (p : String) : List Char :=
  ((splitOnChar '/' p.toList).filter (fun cs => !cs.isEmpty && cs ≠ ['.'])).getLastD []

/-- `Path(p).suffix`: substring of the name from its last dot, provided
that dot is neither the first nor the last character of the name. -/
def pySuffix (p : String) : String :=
  let cs := pyName p
  match cs.reverse.findIdx? (fun c => c = '.') with
  | none => ""
  | some j =>
      let i := cs.length - 1 - j
      if 0 < i && i < cs.length - 1 then String.mk (cs.drop i) else ""

/-- `str.lower()` on an extension (ASCII lowering, as all known
extensions are ASCII). -/
def strLower (s : String) : String :=
  String.mk (s.toList.map Char.toLower)

/-- Python truthiness of a string (`if file_name:`): nonempty. -/
def strTruthy (s : String) : Bool :=
  !s.toList.isEmpty

/-! ## Format classifier (bot.py `is_audio_file` / `is_video_file`) -/

/-- Python truthiness of an optional string (`if mime_type:`). -/
def optTruthy : Option String → Bool
  | some s => strTruthy s
  | none => false

/-- The guard `mime_type and mime_type in mimes` of bot.py. -/
def mimeRecognized (mime_type : Option String) (mimes : List String) : Bool :=
  match mime_type with
  | some m => strTruthy m && mimes.contains m
  | none => false

/-- The fallback `if file_name: ext = Path(file_name).suffix.lower();
return ext in exts` of bot.py. -/
def extFallback (exts : List String) (file_name : Option String) : Bool :=
  match file_name with
  | some n => if strTruthy n then exts.contains (strLower (pySuffix n)) else false
  | none => false

/-- `is_audio_file(mime_type, file_name)` from bot.py: accept when the
mime type is a supported audio mime; otherwise, when a file name is
present, fall back to its lower-cased extension. -/
def is_audio_file (mime_type file_name : Option String) : Bool :=
  if mimeRecognized mime_type SUPPORTED_AUDIO_MIMES then true
  else extFallback AUDIO_EXTENSIONS file_name

/-- `is_video_file(mime_type, file_name)` from bot.py. -/
def is_video_file (mime_type file_name : Option String) : Bool :=
  if mimeRecognized mime_type SUPPORTED_VIDEO_MIMES then true
  else extFallback VIDEO_EXTENSIONS file_name

/-- Classifier result, as in the spec's data model. -/
inductive MediaKind where
  | Audio
  | Video
  | Unsupported
deriving DecidableEq, Repr

/-- The classifier as `handle_media`'s document branch applies it:
`is_audio_file` is consulted first, then `is_video_file`. -/
def classify (mime_type file_name : Option String) : MediaKind :=
  if is_audio_file mime_type file_name then MediaKind.Audio
  else if is_video_file mime_type file_name then MediaKind.Video
  else MediaKind.Unsupported

/-! ## Media transcoder adapter (bot.py `extract_audio_from_video`) -/

/-- Outcome of a `subprocess.run` invocation: either the process ran and
exited with a return code, or the invocation itself raised. -/
inductive ProcResult where
  | exited (returncode : Int)
  | raised (msg : String)

/-- The fixed ffmpeg argument list built by `extract_audio_from_video`. -/
def ffmpegArgs (video_path output_path : String) : List String :=
  ["ffmpeg", "-i", video_path, "-vn", "-acodec", "libmp3lame",
   "-ar", "16000", "-ac", "1", "-y", output_path]

/-- `extract_audio_from_video(video_path, output_path)` from bot.py,
with the external process modelled by `run`: true exactly on exit code 0;
any raised exception is caught and yields false. -/
def extract_audio_from_video (run : List String → ProcResult)
    (video_path output_path : String) : Bool :=
  match run (ffmpegArgs video_path output_path) with
  | ProcResult.exited code => code == 0
  | ProcResult.raised _ => false

/-! ## Job queue and worker (bot.py `media_worker`)

The worker's effects are made explicit: the temp directory is a list of
paths, and each outbound Telegram call is recorded as an `Event`
(`edit` carries whether the platform accepted the edit; intermediate
status edits have their `BadRequest` swallowed by the source, the final
edit falls back to `reply`, and the error-path edit is recorded as
performed). -/

/-- One outbound message operation performed by the worker. -/
inductive Event where
  | edit (text : String) (ok : Bool)
  | reply (text : String)
deriving DecidableEq, Repr

/-- A queued job, as the tuple
`(file_id, message, status_msg, is_video, file_name)` put on
`media_queue` (the two message references are collapsed into the
message id that keys the temp-file names). -/
structure Job where
  file_id : String
  message_id : Nat
  is_video : Bool
  file_name : Option String
deriving DecidableEq, Repr

/-- Outcomes of the external collaborators during one job: the download,
the ffmpeg process (plus whether a failed run left a stub output file,
and whether a failed download left a stub file), the status-message
edits (false = the platform raised `BadRequest`), and the transcription
backend call. -/
structure JobEnv where
  download : Except String Unit
  downloadLeftover : Bool
  run : List String → ProcResult
  audioLeftover : Bool
  editExtracting : Bool
  editTranscribing : Bool
  transcribeRes : Except String String
  editFinal : Bool

/-- Temp-directory membership (`Path.exists`). -/
def fsHas (fs : List String) (p : String) : Bool :=
  decide (p ∈ fs)

/-- `os.remove` (on the model: drop the path). -/
def fsRemove (fs : List String) (p : String) : List String :=
  fs.filter (fun q => q ≠ p)

/-- File creation (download or ffmpeg output). -/
def fsAdd (fs : List String) (p : String) : List String :=
  p :: fs

/-- The temp directory used by the worker. -/
def tempDir : String := "pink-telegram-transcriber/"

/-- `file_ext` as computed by the worker: the suffix of `file_name` when
present, else defaulted by media kind. -/
def jobFileExt (is_video : Bool) (file_name : Option String) : String :=
  let e := match file_name with
    | some n => if strTruthy n then pySuffix n else ""
    | none => ""
  if !strTruthy e then (if is_video then ".mp4" else ".mp3") else e

/-- `download_path` for a job: keyed by the message id. -/
def downloadPath (j : Job) : String :=
  tempDir ++ toString j.message_id ++ jobFileExt j.is_video j.file_name

/-- `audio_path` for a job: a separate `<id>_audio.mp3` for video jobs,
the download path itself for audio jobs. -/
def audioPath (j : Job) : String :=
  if j.is_video then tempDir ++ toString j.message_id ++ "_audio.mp3"
  else downloadPath j

/-- `"❌ Error: " + str(e)`. -/
def errorText (e : String) : String := "❌ Error: " ++ e

/-- Status texts from bot.py. -/
def extractingStatus : String := "🎬 Extracting audio from video..."

def transcribingStatus : String := "🎧 Transcribing..."

def processingVideoStatus : String := "🎬 Processing video..."

def accessDeniedText : String := "⛔ Access denied."

/-- The worker's `except Exception` handler: delete `download_path` and
(for video jobs) `audio_path` when they exist, then edit the status
message to the error description. -/
def cleanupOnError (is_video : Bool) (download_path audio_path : String)
    (fs : List String) (evs : List Event) (e : String) : List String × List Event :=
  let fs1 := if fsHas fs download_path then fsRemove fs download_path else fs
  let fs2 := if is_video && fsHas fs1 audio_path then fsRemove fs1 audio_path else fs1
  (fs2, evs ++ [Event.edit (errorText e) true])

/-- The tail of the worker's `try` block: transcribe, delete the audio
temp file, and deliver the text (edit first; on `BadRequest`, reply). -/
def transcribeStep (j : Job) (env : JobEnv) (fs : List String)
    (evs : List Event) : List String × List Event :=
  match env.transcribeRes with
  | Except.error e => cleanupOnError j.is_video (downloadPath j) (audioPath j) fs evs e
  | Except.ok text =>
      let fs1 := if fsHas fs (audioPath j) then fsRemove fs (audioPath j) else fs
      (fs1, evs ++ (if env.editFinal then [Event.edit text true]
                    else [Event.edit text false, Event.reply text]))

/-- One iteration of `media_worker` on a dequeued job: download, extract
audio when the job is a video, transcribe, clean up, deliver; any step's
failure routes to `cleanupOnError`. -/
def processJob (j : Job) (env : JobEnv) (fs : List String) :
    List String × List Event :=
  match env.download with
  | Except.error e =>
      let fs1 := if env.downloadLeftover then fsAdd fs (downloadPath j) else fs
      cleanupOnError j.is_video (downloadPath j) (audioPath j) fs1 [] e
  | Except.ok _ =>
      let fs1 := fsAdd fs (downloadPath j)
      if j.is_video then
        let evs1 := [Event.edit extractingStatus env.editExtracting]
        if extract_audio_from_video env.run (downloadPath j) (audioPath j) then
          let fs2 := fsRemove (fsAdd fs1 (audioPath j)) (downloadPath j)
          transcribeStep j env fs2 (evs1 ++ [Event.edit transcribingStatus env.editTranscribing])
        else
          let fs2 := if env.audioLeftover then fsAdd fs1 (audioPath j) else fs1
          cleanupOnError true (downloadPath j) (audioPath j) fs2 evs1
            "Failed to extract audio from video"
      else
        transcribeStep j env fs1 []

/-- The step at which a job fails, if any, with the exception text the
worker's handler receives (mirrors the `raise`/propagation structure of
the `try` block). -/
def failureReason (j : Job) (env : JobEnv) : Option String :=
  match env.download with
  | Except.error e => some e
  | Except.ok _ =>
      if j.is_video && !extract_audio_from_video env.run (downloadPath j) (audioPath j) then
        some "Failed to extract audio from video"
      else
        match env.transcribeRes with
        | Except.error e => some e
        | Except.ok _ => none

/-- The outbound operations of one job (they do not depend on the
incoming temp-directory state; see `processJob_events_const`). -/
def eventsOfJob (j : Job) (env : JobEnv) : List Event :=
  (processJob j env []).2

/-- The single-consumer worker loop over the queue contents in arrival
order: each job is run to completion before the next is dequeued. -/
def runWorker (jobs : List (Job × JobEnv)) (fs : List String) :
    List String × List (List Event) :=
  match jobs with
  | [] => (fs, [])
  | (j, env) :: rest =>
      let r := processJob j env fs
      let rr := runWorker rest r.1
      (rr.1, r.2 :: rr.2)

/-! ## Transport adapter (bot.py `handle_media`, `handle_text_message`) -/

/-- An outbound `reply_text` by a handler. -/
inductive OutMsg where
  | reply (text : String)
deriving DecidableEq, Repr

/-- What `handle_media` enqueues. -/
structure QueueItem where
  file_id : String
  is_video : Bool
  file_name : Option String
deriving DecidableEq, Repr

/-- The media attribute set on the inbound message. -/
inductive InboundMedia where
  | voiceMsg (file_id : String)
  | videoNoteMsg (file_id : String)
  | audioMsg (file_id : String) (file_name : Option String)
  | videoMsg (file_id : String) (file_name : Option String)
  | documentMsg (file_id : String) (mime_type : Option String) (file_name : Option String)
  | otherMsg
deriving DecidableEq, Repr

/-- Python `x or dflt` on an optional string. -/
def pyOrStr (o : Option String) (dflt : String) : String :=
  match o with
  | some s => if strTruthy s then s else dflt
  | none => dflt

/-- The guidance reply for unsupported documents. -/
def unsupportedFormatText : String :=
  "⚠️ Unsupported file format.\n\nSupported formats: audio (MP3, WAV, M4A, OGG, FLAC, etc.) and video files (audio will be extracted)."

/-- The guidance reply of `handle_text_message` for whitelisted users. -/
def textPromptText : String :=
  "🎤 Please send audio or video for transcription.\n\nSupported formats:\n• Voice messages\n• Video notes (circles/кружочки)\n• Audio files (MP3, M4A, WAV, OGG, FLAC, etc.)\n• Video files (audio will be extracted)"

/-- Tail of `handle_media`: send the processing indicator, then put the
job on the queue. -/
def enqueueJob (queue : List QueueItem) (fid : String) (isv : Bool)
    (name : Option String) : List QueueItem × List OutMsg :=
  let status := if isv then processingVideoStatus else transcribingStatus
  (queue ++ [⟨fid, isv, name⟩], [OutMsg.reply status])

/-- `handle_media` from bot.py: whitelist check, media-type dispatch,
classification for documents, then status reply and enqueue. Returns the
new queue contents and the replies sent. -/
def handle_media (allowed : List Int) (user_id : Int) (msg : InboundMedia)
    (queue : List QueueItem) : List QueueItem × List OutMsg :=
  if !is_user_allowed allowed user_id then
    (queue, [OutMsg.reply accessDeniedText])
  else
    match msg with
    | InboundMedia.voiceMsg fid => enqueueJob queue fid false (some "voice.ogg")
    | InboundMedia.videoNoteMsg fid => enqueueJob queue fid true (some "video_note.mp4")
    | InboundMedia.audioMsg fid name => enqueueJob queue fid false (some (pyOrStr name "audio.mp3"))
    | InboundMedia.videoMsg fid name => enqueueJob queue fid true (some (pyOrStr name "video.mp4"))
    | InboundMedia.documentMsg fid mime name =>
        if is_audio_file mime name then enqueueJob queue fid false name
        else if is_video_file mime name then enqueueJob queue fid true name
        else (queue, [OutMsg.reply unsupportedFormatText])
    | InboundMedia.otherMsg => (queue, [])

/-- `handle_text_message` from bot.py: silent return for senders outside
the whitelist, guidance reply otherwise. -/
def handle_text_message (allowed : List Int) (user_id : Int) : List OutMsg :=
  if !is_user_allowed allowed user_id then []
  else [OutMsg.reply textPromptText]

/-! ## Startup configuration (config.py) -/

/-- Python `str.strip()` on a character list. -/
def pyStrip (cs : List Char) : List Char :=
  ((cs.dropWhile Char.isWhitespace).reverse.dropWhile Char.isWhitespace).reverse

/-- Decimal digits to a number. -/
def digitsToNat (cs : List Char) : Nat :=
  cs.foldl (fun a c => a * 10 + (c.toNat - 48)) 0

/-- Python `int(s)` on an already-stripped string: an optional sign
followed by at least one decimal digit; anything else raises
`ValueError` (`none`). -/
def pyInt (cs : List Char) : Option Int :=
  match cs with
  | [] => none
  | c :: rest =>
      if c = '-' || c = '+' then
        if !rest.isEmpty && rest.all Char.isDigit then
          some (if c = '-' then -(digitsToNat rest : Int) else (digitsToNat rest : Int))
        else none
      else
        if (c :: rest).all Char.isDigit then some ((digitsToNat (c :: rest) : Int))
        else none

/-- The whitelist comprehension of config.py:
`{int(uid.strip()) for uid in s.split(",") if uid.strip()}`; `none` when
any piece raises `ValueError`. -/
def parseAllowedIds (s : String) : Option (List Int) :=
  (((splitOnChar ',' s.toList).map pyStrip).filter (fun cs => !cs.isEmpty)).mapM pyInt

/-- Result of importing config.py: either `sys.exit(1)` after a stderr
diagnostic, or a loaded whitelist with an optional printed warning. -/
inductive ConfigResult where
  | fatalExit (diagnostic : String)
  | ok (allowed : List Int) (warning : Option String)
deriving DecidableEq, Repr

/-- Diagnostics and warning printed by config.py. -/
def tokenMissingDiag : String := "ERROR: TELEGRAM_BOT_TOKEN not set in .env file"

def whitelistFormatDiag : String :=
  "ERROR: Invalid ALLOWED_USER_IDS format. Must be comma-separated integers."

def emptyWhitelistWarning : String :=
  "WARNING: No user IDs in whitelist. Bot will not respond to anyone."

/-- The module-level startup checks of config.py, as a function of the
two environment variables. -/
def loadConfig (token : Option String) (allowedStr : Option String) : ConfigResult :=
  if !optTruthy token then ConfigResult.fatalExit tokenMissingDiag
  else
    let s := allowedStr.getD ""
    if !strTruthy s then ConfigResult.ok [] (some emptyWhitelistWarning)
    else
      match parseAllowedIds s with
      | none => ConfigResult.fatalExit whitelistFormatDiag
      | some ids =>
          if ids.isEmpty then ConfigResult.ok ids (some emptyWhitelistWarning)
          else ConfigResult.ok ids none

/-! ## Sanity checks of the embedding -/

example : pySuffix "clip.mp3" = ".mp3" := by decide
example : pySuffix "archive.tar.gz" = ".gz" := by decide
example : pySuffix ".bashrc" = "" := by decide
example : pySuffix "noext" = "" := by decide
example : classify (some "audio/mpeg") (some "x.mp4") = MediaKind.Audio := by decide
example : classify none (some "a.mp4") = MediaKind.Video := by decide
example : classify none (some "a.xyz") = MediaKind.Unsupported := by decide
example : parseAllowedIds "1, 2" = some [1, 2] := by decide
example : parseAllowedIds "1,x" = none := by decide
example : parseAllowedIds " , " = some [] := by decide

/-! ## Helper lemmas -/

theorem mem_contains_true {l : List String} {a : String} (h : a ∈ l) :
    l.contains a = true :=
  List.elem_iff.mpr h

theorem not_mem_contains_false {l : List String} {a : String} (h : a ∉ l) :
    l.contains a = false := by
  cases hc : l.contains a
  · rfl
  · exact absurd (List.elem_iff.mp hc) h

theorem audio_mime_truthy {m : String} (h : m ∈ SUPPORTED_AUDIO_MIMES) :
    strTruthy m = true :=
  (by decide : ∀ x ∈ SUPPORTED_AUDIO_MIMES, strTruthy x = true) m h

theorem video_mime_truthy {m : String} (h : m ∈ SUPPORTED_VIDEO_MIMES) :
    strTruthy m = true :=
  (by decide : ∀ x ∈ SUPPORTED_VIDEO_MIMES, strTruthy x = true) m h

theorem video_not_audio_mime {m : String} (h : m ∈ SUPPORTED_VIDEO_MIMES) :
    m ∉ SUPPORTED_AUDIO_MIMES :=
  (by decide : ∀ x ∈ SUPPORTED_VIDEO_MIMES, x ∉ SUPPORTED_AUDIO_MIMES) m h

theorem mimeRecognized_of_mem {m : String} {mimes : List String}
    (ht : strTruthy m = true) (h : m ∈ mimes) :
    mimeRecognized (some m) mimes = true := by
  simp only [mimeRecognized]
  rw [ht, mem_contains_true h]
  rfl

theorem classify_of_audio_mime {m : String} (file_name : Option String)
    (h : m ∈ SUPPORTED_AUDIO_MIMES) :
    classify (some m) file_name = MediaKind.Audio := by
  simp [classify, is_audio_file, mimeRecognized_of_mem (audio_mime_truthy h) h]

theorem mimeRecognized_of_not_mem {m : String} {mimes : List String} (h : m ∉ mimes) :
    mimeRecognized (some m) mimes = false := by
  simp only [mimeRecognized]
  rw [not_mem_contains_false h]
  simp

/-! ## Claim C1 -/

/-- Claim C1 counterexample: an input whose content-type "video/mp4" is
present and matches exactly the video content-type set, but whose file
name "clip.mp3" carries a known audio extension, is classified Audio —
the extension fallback fires even though the content-type matched, so
content-type does not take precedence as the claim states. -/
theorem classify_ct_precedence_cex :
    "video/mp4" ∈ SUPPORTED_VIDEO_MIMES ∧
    "video/mp4" ∉ SUPPORTED_AUDIO_MIMES ∧
    strLower (pySuffix "clip.mp3") ∈ AUDIO_EXTENSIONS ∧
    classify (some "video/mp4") (some "clip.mp3") = MediaKind.Audio := by
  decide

/-- Claim C1 as amended: a known audio content-type forces Audio
regardless of filename, but a known video content-type forces Video only
when the filename does not carry a known audio extension; when it does,
the audio-extension fallback wins and the result is Audio. -/
theorem classify_ct_precedence_amended (m : String) (file_name : Option String) :
    (m ∈ SUPPORTED_AUDIO_MIMES → classify (some m) file_name = MediaKind.Audio) ∧
    (m ∈ SUPPORTED_VIDEO_MIMES → extFallback AUDIO_EXTENSIONS file_name = false →
        classify (some m) file_name = MediaKind.Video) ∧
    (m ∈ SUPPORTED_VIDEO_MIMES → extFallback AUDIO_EXTENSIONS file_name = true →
        classify (some m) file_name = MediaKind.Audio) := by
  refine ⟨fun h => classify_of_audio_mime file_name h, fun h hfb => ?_, fun h hfb => ?_⟩
  · simp [classify, is_audio_file, is_video_file,
      mimeRecognized_of_not_mem (video_not_audio_mime h), hfb,
      mimeRecognized_of_mem (video_mime_truthy h) h]
  · simp [classify, is_audio_file,
      mimeRecognized_of_not_mem (video_not_audio_mime h), hfb]

/-- Claim C1 witness: the amended theorem applied at content-type
"video/quicktime" with filename "film.mov" (no audio extension). -/
theorem classify_ct_precedence_amended_w :
    classify (some "video/quicktime") (some "film.mov") = MediaKind.Video :=
  (classify_ct_precedence_amended "video/quicktime" (some "film.mov")).2.1
    (by decide) (by decide)

/-! ## Claim C2 -/

/-- Claim C2 counterexample: with no content-type and filename "a.webm",
the extension ".webm" is in the video-extension set, yet classification
is Audio (".webm" is also in the audio-extension set, and the audio
check runs first). -/
theorem classify_video_ext_cex :
    strLower (pySuffix "a.webm") = ".webm" ∧
    ".webm" ∈ VIDEO_EXTENSIONS ∧
    classify none (some "a.webm") = MediaKind.Audio := by
  decide

/-- Claim C2 as amended: when the content-type is absent or matches
neither mime set, a filename extension in the video-extension set yields
Video provided the extension is not also in the audio-extension set
(".webm" is in both and yields Audio). -/
theorem classify_video_ext_amended (mime_type file_name : Option String) :
    (mimeRecognized mime_type SUPPORTED_AUDIO_MIMES = false →
     mimeRecognized mime_type SUPPORTED_VIDEO_MIMES = false →
     extFallback VIDEO_EXTENSIONS file_name = true →
     extFallback AUDIO_EXTENSIONS file_name = false →
     classify mime_type file_name = MediaKind.Video) ∧
    (mimeRecognized mime_type SUPPORTED_AUDIO_MIMES = false →
     extFallback AUDIO_EXTENSIONS file_name = true →
     classify mime_type file_name = MediaKind.Audio) := by
  constructor
  · intro h1 h2 h3 h4
    simp [classify, is_audio_file, is_video_file, h1, h2, h3, h4]
  · intro h1 h2
    simp [classify, is_audio_file, h1, h2]

/-- Claim C2 witness: the amended theorem applied at an absent
content-type and filename "a.mkv". -/
theorem classify_video_ext_amended_w :
    classify none (some "a.mkv") = MediaKind.Video :=
  (classify_video_ext_amended none (some "a.mkv")).1
    (by decide) (by decide) (by decide) (by decide)

/-! ## Claim C3 -/

/-- Claim C3: for every input whose content-type is in the known audio
content-type set, the classifier returns Audio, whatever the filename
(including video extensions and absent filenames). -/
theorem classify_audio_mime_always_audio (m : String) (file_name : Option String)
    (h : m ∈ SUPPORTED_AUDIO_MIMES) :
    classify (some m) file_name = MediaKind.Audio :=
  classify_of_audio_mime file_name h

/-- Claim C3 witness: applied at content-type "audio/mpeg" with a
video-extension filename. -/
theorem classify_audio_mime_always_audio_w :
    classify (some "audio/mpeg") (some "x.mp4") = MediaKind.Audio :=
  classify_audio_mime_always_audio "audio/mpeg" (some "x.mp4") (by decide)

/-! ## Claim C4 -/

/-- Claim C4: for every input path pair, the audio-extraction adapter
returns a boolean only — true exactly when the transcoder process exits
zero, false on any non-zero exit, and false when the invocation raises
(the exception is caught at the boundary). -/
theorem extract_audio_boolean_contract (run : List String → ProcResult)
    (video_path output_path : String) :
    (∀ c, run (ffmpegArgs video_path output_path) = ProcResult.exited c →
        extract_audio_from_video run video_path output_path = (c == 0)) ∧
    (∀ msg, run (ffmpegArgs video_path output_path) = ProcResult.raised msg →
        extract_audio_from_video run video_path output_path = false) ∧
    (extract_audio_from_video run video_path output_path = true ↔
        run (ffmpegArgs video_path output_path) = ProcResult.exited 0) := by
  refine ⟨fun c hc => ?_, fun msg hm => ?_, ?_⟩
  · simp [extract_audio_from_video, hc]
  · simp [extract_audio_from_video, hm]
  · cases hr : run (ffmpegArgs video_path output_path) with
    | exited c => simp [extract_audio_from_video, hr]
    | raised msg => simp [extract_audio_from_video, hr]

/-- Claim C4 witness: applied at a process that exits 0. -/
theorem extract_audio_boolean_contract_w :
    extract_audio_from_video (fun _ => ProcResult.exited 0) "in.mp4" "out.mp3" = true :=
  (extract_audio_boolean_contract (fun _ => ProcResult.exited 0) "in.mp4" "out.mp3").2.2.mpr rfl

/-! ## Worker lemmas -/

theorem cleanupOnError_snd (v : Bool) (dp ap : String) (fs : List String)
    (evs : List Event) (e : String) :
    (cleanupOnError v dp ap fs evs e).2 = evs ++ [Event.edit (errorText e) true] :=
  rfl

theorem transcribeStep_snd (j : Job) (env : JobEnv) (fs : List String) (evs : List Event) :
    (transcribeStep j env fs evs).2 =
      match env.transcribeRes with
      | Except.error e => evs ++ [Event.edit (errorText e) true]
      | Except.ok text => evs ++ (if env.editFinal then [Event.edit text true]
                                  else [Event.edit text false, Event.reply text]) := by
  cases h : env.transcribeRes <;> simp [transcribeStep, h, cleanupOnError_snd]

theorem processJob_events_const (j : Job) (env : JobEnv) (fs : List String) :
    (processJob j env fs).2 = eventsOfJob j env := by
  unfold eventsOfJob
  cases hd : env.download <;>
    cases hv : j.is_video <;>
      cases hex : extract_audio_from_video env.run (downloadPath j) (audioPath j) <;>
        simp [processJob, hd, hv, hex, cleanupOnError_snd, transcribeStep_snd]

theorem fsHas_fsRemove_self (fs : List String) (p : String) :
    fsHas (fsRemove fs p) p = false := by
  simp [fsHas, fsRemove, List.mem_filter]

theorem fsHas_fsRemove_of_false (fs : List String) (p q : String)
    (h : fsHas fs q = false) : fsHas (fsRemove fs p) q = false := by
  simp only [fsHas, fsRemove, decide_eq_false_iff_not, List.mem_filter] at h ⊢
  tauto

theorem cleanupOnError_fst_dp (v : Bool) (dp ap : String) (fs : List String)
    (evs : List Event) (e : String) :
    fsHas (cleanupOnError v dp ap fs evs e).1 dp = false := by
  simp only [cleanupOnError]
  split_ifs with h1 h2 h3
  · exact fsHas_fsRemove_of_false _ _ _ (fsHas_fsRemove_self fs dp)
  · exact fsHas_fsRemove_self fs dp
  · exact fsHas_fsRemove_of_false _ _ _ (by simpa using h1)
  · simpa using h1

theorem cleanupOnError_fst_ap (dp ap : String) (fs : List String)
    (evs : List Event) (e : String) :
    fsHas (cleanupOnError true dp ap fs evs e).1 ap = false := by
  simp only [cleanupOnError, Bool.true_and]
  split_ifs with h1 h2 h3
  · exact fsHas_fsRemove_self _ ap
  · simpa using h2
  · exact fsHas_fsRemove_self _ ap
  · simpa using h3

theorem audioPath_of_not_video {j : Job} (hv : j.is_video = false) :
    audioPath j = downloadPath j := by
  simp [audioPath, hv]

theorem cleanupOnError_spec (v : Bool) (dp ap : String) (fs : List String)
    (evs : List Event) (e : String) (hap : v = false → ap = dp) :
    fsHas (cleanupOnError v dp ap fs evs e).1 dp = false ∧
    fsHas (cleanupOnError v dp ap fs evs e).1 ap = false ∧
    (cleanupOnError v dp ap fs evs e).2.getLast? = some (Event.edit (errorText e) true) := by
  refine ⟨cleanupOnError_fst_dp v dp ap fs evs e, ?_, ?_⟩
  · cases v
    · rw [hap rfl]; exact cleanupOnError_fst_dp false dp ap fs evs e
    · exact cleanupOnError_fst_ap dp ap fs evs e
  · rw [cleanupOnError_snd]
    exact List.getLast?_concat _

theorem processJob_failure_spec (j : Job) (env : JobEnv) (fs : List String) (e : String)
    (h : failureReason j env = some e) :
    fsHas (processJob j env fs).1 (downloadPath j) = false ∧
    fsHas (processJob j env fs).1 (audioPath j) = false ∧
    (processJob j env fs).2.getLast? = some (Event.edit (errorText e) true) := by
  have hap : j.is_video = false → audioPath j = downloadPath j := audioPath_of_not_video
  cases hd : env.download with
  | error e' =>
      have he : e' = e := by simpa [failureReason, hd] using h
      subst he
      simpa [processJob, hd] using
        cleanupOnError_spec j.is_video (downloadPath j) (audioPath j) _ [] e' hap
  | ok u =>
      cases hv : j.is_video with
      | false =>
          cases ht : env.transcribeRes with
          | error e' =>
              have he : e' = e := by simpa [failureReason, hd, hv, ht] using h
              subst he
              simpa [processJob, hd, hv, transcribeStep, ht] using
                cleanupOnError_spec j.is_video (downloadPath j) (audioPath j) _ [] e' hap
          | ok t => simp [failureReason, hd, hv, ht] at h
      | true =>
          cases hex : extract_audio_from_video env.run (downloadPath j) (audioPath j) with
          | false =>
              have he : "Failed to extract audio from video" = e := by
                simpa [failureReason, hd, hv, hex] using h
              subst he
              have := cleanupOnError_spec true (downloadPath j) (audioPath j)
                (if env.audioLeftover then fsAdd (fsAdd fs (downloadPath j)) (audioPath j)
                 else fsAdd fs (downloadPath j)) [Event.edit extractingStatus env.editExtracting]
                "Failed to extract audio from video" (by intro hc; cases hc)
              simpa [processJob, hd, hv, hex] using this
          | true =>
              cases ht : env.transcribeRes with
              | error e' =>
                  have he : e' = e := by simpa [failureReason, hd, hv, hex, ht] using h
                  subst he
                  have := cleanupOnError_spec j.is_video (downloadPath j) (audioPath j)
                    (fsRemove (fsAdd (fsAdd fs (downloadPath j)) (audioPath j)) (downloadPath j))
                    ([Event.edit extractingStatus env.editExtracting] ++
                      [Event.edit transcribingStatus env.editTranscribing]) e' hap
                  simpa [processJob, hd, hv, hex, transcribeStep, ht] using this
              | ok t => simp [failureReason, hd, hv, hex, ht] at h

theorem processJob_success_spec (j : Job) (env : JobEnv) (fs : List String)
    (h : failureReason j env = none) :
    ∃ t, env.transcribeRes = Except.ok t ∧
      ∃ evsPre, (processJob j env fs).2 =
        evsPre ++ (if env.editFinal then [Event.edit t true]
                   else [Event.edit t false, Event.reply t]) := by
  cases hd : env.download with
  | error e' => simp [failureReason, hd] at h
  | ok u =>
      cases hv : j.is_video with
      | false =>
          cases ht : env.transcribeRes with
          | error e' => simp [failureReason, hd, hv, ht] at h
          | ok t =>
              exact ⟨t, rfl, [], by simp [processJob, hd, hv, transcribeStep, ht]⟩
      | true =>
          cases hex : extract_audio_from_video env.run (downloadPath j) (audioPath j) with
          | false => simp [failureReason, hd, hv, hex] at h
          | true =>
              cases ht : env.transcribeRes with
              | error e' => simp [failureReason, hd, hv, hex, ht] at h
              | ok t =>
                  exact ⟨t, rfl,
                    [Event.edit extractingStatus env.editExtracting,
                     Event.edit transcribingStatus env.editTranscribing],
                    by simp [processJob, hd, hv, hex, transcribeStep, ht]⟩

theorem runWorker_events (jobs : List (Job × JobEnv)) (fs : List String) :
    (runWorker jobs fs).2 = jobs.map (fun p => eventsOfJob p.1 p.2) := by
  induction jobs generalizing fs with
  | nil => rfl
  | cons p rest ih =>
      cases p with
      | mk j env => simp [runWorker, ih, processJob_events_const]

/-! ## Claim C5 -/

/-- Claim C5: whenever a job fails at any step (download, extraction for
video jobs, or transcription), the worker leaves neither the download
temp path nor the extracted-audio temp path behind — whatever temp state
it started from, and even when the failed step left a stub file — and
its last outbound operation is an edit of the status message to
"❌ Error: " followed by the failure reason. -/
theorem worker_cleanup_and_error_on_failure (j : Job) (env : JobEnv)
    (fs : List String) (e : String) (h : failureReason j env = some e) :
    fsHas (processJob j env fs).1 (downloadPath j) = false ∧
    fsHas (processJob j env fs).1 (audioPath j) = false ∧
    (processJob j env fs).2.getLast? = some (Event.edit (errorText e) true) ∧
    errorText e = "❌ Error: " ++ e := by
  have hs := processJob_failure_spec j env fs e h
  exact ⟨hs.1, hs.2.1, hs.2.2, rfl⟩

/-- Claim C5 witness: a video job whose transcoder exits 1 leaving a
stub output file; the stub and the downloaded video are both gone and
the status message gets the error edit. -/
theorem worker_cleanup_and_error_on_failure_w :
    fsHas (processJob ⟨"f", 7, true, some "v.mp4"⟩
        ⟨Except.ok (), false, fun _ => ProcResult.exited 1, true, true, true,
          Except.ok "hello", true⟩ []).1
      (audioPath ⟨"f", 7, true, some "v.mp4"⟩) = false ∧
    (processJob ⟨"f", 7, true, some "v.mp4"⟩
        ⟨Except.ok (), false, fun _ => ProcResult.exited 1, true, true, true,
          Except.ok "hello", true⟩ []).2.getLast? =
      some (Event.edit (errorText "Failed to extract audio from video") true) := by
  have hs := worker_cleanup_and_error_on_failure ⟨"f", 7, true, some "v.mp4"⟩
    ⟨Except.ok (), false, fun _ => ProcResult.exited 1, true, true, true,
      Except.ok "hello", true⟩ [] "Failed to extract audio from video" (by decide)
  exact ⟨hs.2.1, hs.2.2.1⟩

/-! ## Claim C6 -/

/-- Claim C6: when a job's transcription succeeds, the worker first
attempts the in-place edit of the status message to the transcribed
text, and sends the text as a new reply, after the edit, exactly when
the platform rejected the edit (`BadRequest`). -/
theorem worker_success_edit_before_reply (j : Job) (env : JobEnv) (fs : List String)
    (text : String) (hok : env.transcribeRes = Except.ok text)
    (h : failureReason j env = none) :
    ∃ evsPre, (processJob j env fs).2 =
      evsPre ++ (if env.editFinal then [Event.edit text true]
                 else [Event.edit text false, Event.reply text]) := by
  obtain ⟨t, ht, evsPre, hp⟩ := processJob_success_spec j env fs h
  rw [hok] at ht
  injection ht with ht'
  subst ht'
  exact ⟨evsPre, hp⟩

/-- Claim C6 witness: a successful video job whose final edit is
rejected; the edit attempt is recorded and then the reply follows. -/
theorem worker_success_edit_before_reply_w :
    ∃ evsPre, (processJob ⟨"f", 9, true, none⟩
        ⟨Except.ok (), false, fun _ => ProcResult.exited 0, false, false, true,
          Except.ok "txt", false⟩ []).2 =
      evsPre ++ [Event.edit "txt" false, Event.reply "txt"] :=
  worker_success_edit_before_reply ⟨"f", 9, true, none⟩
    ⟨Except.ok (), false, fun _ => ProcResult.exited 0, false, false, true,
      Except.ok "txt", false⟩ [] "txt" rfl (by decide)

/-! ## Claim C7 -/

/-- Claim C7: the worker is the single consumer of the queue — it runs
jobs one at a time in arrival order, so the per-job outbound operations
come out exactly as the FIFO map over the queue contents — and every
dequeued job terminates in exactly one of two outcomes: a delivered
transcription (edit, or reply after a rejected edit) or a delivered
error edit. -/
theorem worker_fifo_single_consumer_total (jobs : List (Job × JobEnv)) (fs : List String) :
    (runWorker jobs fs).2 = jobs.map (fun p => eventsOfJob p.1 p.2) ∧
    ∀ p ∈ jobs,
      ((∃ e, failureReason p.1 p.2 = some e ∧
          (eventsOfJob p.1 p.2).getLast? = some (Event.edit (errorText e) true)) ∨
       (failureReason p.1 p.2 = none ∧
        ∃ t, p.2.transcribeRes = Except.ok t ∧
          ∃ evsPre, eventsOfJob p.1 p.2 =
            evsPre ++ (if p.2.editFinal then [Event.edit t true]
                       else [Event.edit t false, Event.reply t]))) ∧
      ¬((∃ e, failureReason p.1 p.2 = some e) ∧ failureReason p.1 p.2 = none) := by
  refine ⟨runWorker_events jobs fs, fun p hp => ⟨?_, ?_⟩⟩
  · cases hf : failureReason p.1 p.2 with
    | none =>
        obtain ⟨t, ht, evsPre, hpre⟩ := processJob_success_spec p.1 p.2 [] hf
        exact Or.inr ⟨rfl, t, ht, evsPre, hpre⟩
    | some e => exact Or.inl ⟨e, rfl, (processJob_failure_spec p.1 p.2 [] e hf).2.2⟩
  · rintro ⟨⟨e, he⟩, hn⟩
    rw [hn] at he
    cases he

/-- Claim C7 witness: a one-job queue comes out as the map of that job's
operations. -/
theorem worker_fifo_single_consumer_total_w :
    (runWorker [(⟨"f", 8, false, some "a.ogg"⟩,
        ⟨Except.ok (), false, fun _ => ProcResult.exited 0, false, true, true,
          Except.ok "hello", true⟩)] []).2 =
      [eventsOfJob ⟨"f", 8, false, some "a.ogg"⟩
        ⟨Except.ok (), false, fun _ => ProcResult.exited 0, false, true, true,
          Except.ok "hello", true⟩] :=
  (worker_fifo_single_consumer_total [(⟨"f", 8, false, some "a.ogg"⟩,
    ⟨Except.ok (), false, fun _ => ProcResult.exited 0, false, true, true,
      Except.ok "hello", true⟩)] []).1

/-! ## Claim C8 -/

theorem is_user_allowed_false_of_not_mem {allowed : List Int} {uid : Int}
    (h : uid ∉ allowed) : is_user_allowed allowed uid = false := by
  cases hc : is_user_allowed allowed uid
  · rfl
  · exact absurd (List.elem_iff.mp hc) h

/-- Claim C8: any media event from a sender outside the whitelist gets
exactly the fixed denial reply, the queue is returned unchanged (no job
created), and the access decision is exact set membership of the sender
identifier. -/
theorem unauthorized_media_denied_no_enqueue (allowed : List Int) (user_id : Int)
    (msg : InboundMedia) (queue : List QueueItem) (h : user_id ∉ allowed) :
    handle_media allowed user_id msg queue = (queue, [OutMsg.reply accessDeniedText]) ∧
    (is_user_allowed allowed user_id = true ↔ user_id ∈ allowed) := by
  constructor
  · simp [handle_media, is_user_allowed_false_of_not_mem h]
  · exact ⟨fun hc => List.elem_iff.mp hc, fun hm => List.elem_iff.mpr hm⟩

/-- Claim C8 witness: user 6 against whitelist {5}, sending a voice
message over an empty queue. -/
theorem unauthorized_media_denied_no_enqueue_w :
    handle_media [5] 6 (InboundMedia.voiceMsg "f") [] =
      ([], [OutMsg.reply accessDeniedText]) :=
  (unauthorized_media_denied_no_enqueue [5] 6 (InboundMedia.voiceMsg "f") [] (by decide)).1

/-! ## Claim C9 -/

/-- Claim C9: at startup, a falsy credential is fatal with the token
diagnostic; a present (nonempty) whitelist string that fails to parse is
fatal with the format diagnostic; a whitelist that parses to the empty
set — and likewise an absent/empty whitelist string — yields the printed
warning and a non-fatal result. -/
theorem config_startup_validation (token allowedStr : Option String) :
    (optTruthy token = false →
        loadConfig token allowedStr = ConfigResult.fatalExit tokenMissingDiag) ∧
    (optTruthy token = true → strTruthy (allowedStr.getD "") = true →
        parseAllowedIds (allowedStr.getD "") = none →
        loadConfig token allowedStr = ConfigResult.fatalExit whitelistFormatDiag) ∧
    (optTruthy token = true → strTruthy (allowedStr.getD "") = true →
        parseAllowedIds (allowedStr.getD "") = some [] →
        loadConfig token allowedStr = ConfigResult.ok [] (some emptyWhitelistWarning)) ∧
    (optTruthy token = true → strTruthy (allowedStr.getD "") = false →
        loadConfig token allowedStr = ConfigResult.ok [] (some emptyWhitelistWarning)) := by
  refine ⟨fun h1 => ?_, fun h1 h2 h3 => ?_, fun h1 h2 h3 => ?_, fun h1 h2 => ?_⟩
  · simp [loadConfig, h1]
  · simp [loadConfig, h1, h2, h3]
  · simp [loadConfig, h1, h2, h3]
  · simp [loadConfig, h1, h2]

/-- Claim C9 witness: missing credential; unparsable whitelist "1,x";
whitespace-only whitelist " , " (parses to the empty set); absent
whitelist variable. -/
theorem config_startup_validation_w :
    loadConfig none (some "1,2") = ConfigResult.fatalExit tokenMissingDiag ∧
    loadConfig (some "t") (some "1,x") = ConfigResult.fatalExit whitelistFormatDiag ∧
    loadConfig (some "t") (some " , ") = ConfigResult.ok [] (some emptyWhitelistWarning) ∧
    loadConfig (some "t") none = ConfigResult.ok [] (some emptyWhitelistWarning) :=
  ⟨(config_startup_validation none (some "1,2")).1 (by decide),
   (config_startup_validation (some "t") (some "1,x")).2.1 (by decide) (by decide) (by decide),
   (config_startup_validation (some "t") (some " , ")).2.2.1 (by decide) (by decide) (by decide),
   (config_startup_validation (some "t") none).2.2.2 (by decide) (by decide)⟩

/-! ## Claim C10 -/

/-- Claim C10: a plain text message from a sender outside the whitelist
is ignored silently — no reply of any kind — in contrast with the denial
reply the same sender gets for media. -/
theorem unauthorized_text_silent (allowed : List Int) (user_id : Int)
    (h : user_id ∉ allowed) :
    handle_text_message allowed user_id = [] ∧
    ∀ msg queue, (handle_media allowed user_id msg queue).2 =
      [OutMsg.reply accessDeniedText] := by
  constructor
  · simp [handle_text_message, is_user_allowed_false_of_not_mem h]
  · intro msg queue
    simp [handle_media, is_user_allowed_false_of_not_mem h]

/-- Claim C10 witness: user 6 against whitelist {5}. -/
theorem unauthorized_text_silent_w :
    handle_text_message [5] 6 = [] :=
  (unauthorized_text_silent [5] 6 (by decide)).1

end PinkTranscriber
